import Mathlib

/-!
Verification of the Inspectura wood-grading application
(`testIR/testIRCTKv2.py`) against its natural-language specification.

The Python source is embedded shallowly: machine floats are modelled as
rationals (`ℚ`), Python `round`/`int` as explicit functions on `ℚ`,
Python dicts keyed by the fixed grade / knot-type names as functions out
of small inductive types, and Python `None` as `Option`.
-/

namespace Inspectura

/-- Python `round` on a rational value: round half to even (banker's
rounding), as Python's built-in `round` does. -/
def pyRound (q : ℚ) : ℤ :=
  let f : ℤ := ⌊q⌋
  let r : ℚ := q - f
  if r < 1/2 then f
  else if 1/2 < r then f + 1
  else if f % 2 = 0 then f else f + 1

/-- Python `int()` applied to a rational value: truncation toward zero. -/
def pyInt (q : ℚ) : ℤ :=
  if 0 ≤ q then ⌊q⌋ else ⌈q⌉

/-- The five appearance grades of `SSEN1611_1_PineGrader_Final.GRADES`,
`"G2-0"` (best) through `"G2-4"` (worst). -/
inductive Grade where
  | g20 | g21 | g22 | g23 | g24
deriving DecidableEq, Repr

/-- `GRADES = ["G2-0", "G2-1", "G2-2", "G2-3", "G2-4"]`, best first. -/
def GRADES : List Grade := [.g20, .g21, .g22, .g23, .g24]

/-- Position of a grade in `GRADES`: 0 = best (G2-0), 4 = worst (G2-4). -/
def gradeIdx : Grade → ℕ
  | .g20 => 0
  | .g21 => 1
  | .g22 => 2
  | .g23 => 3
  | .g24 => 4

/-- The three knot categories of `SSEN1611_1_PineGrader_Final.KNOT_TYPES`:
`"Sound Knots"`, `"Dead Knots"`, `"Unsound/Missing Knots"`. -/
inductive KnotType where
  | sound | dead | unsound
deriving DecidableEq, Repr

/-- `KNOT_TYPES`, in source order. -/
def KNOT_TYPES : List KnotType := [.sound, .dead, .unsound]

/-- `KNOT_SIZE_LIMITS`: per grade, the `(percent_width, constant_mm)` pairs
in `KNOT_TYPES` order.  `(0, 0)` is the NOT PERMITTED sentinel. -/
def KNOT_SIZE_LIMITS : Grade → List (ℚ × ℚ)
  | .g20 => [(1/10, 10), (1/10, 0), (0, 0)]
  | .g21 => [(1/10, 20), (1/10, 10), (0, 0)]
  | .g22 => [(1/10, 35), (1/10, 20), (1/10, 15)]
  | .g23 => [(1/10, 50), (1/10, 50), (1/10, 40)]
  | .g24 => [(1, 0), (1, 0), (1, 0)]

/-- `KNOT_NUMBER_LIMITS`: per grade, `(max total knots, max unsound/missing
knots)`; `none` models Python's `float('inf')` (no limit). -/
def KNOT_NUMBER_LIMITS : Grade → Option ℚ × Option ℚ
  | .g20 => (some 2, some 0)
  | .g21 => (some 4, some 0)
  | .g22 => (some 6, some 2)
  | .g23 => (none, some 5)
  | .g24 => (none, none)

/-- `__init__`: `size_increase_mm = 10 if width_mm >= 180 else 0`
(PINE Note B). -/
def size_increase_mm (width_mm : ℚ) : ℚ :=
  if width_mm ≥ 180 then 10 else 0

/-- `get_max_allowed_size(grade, knot_type)`: look up the
`(percent, constant)` pair for the knot type, compute
`percent * width + constant + size_increase_mm`, return 0 for the
NOT PERMITTED sentinel and the Python-rounded value otherwise. -/
def get_max_allowed_size (width_mm : ℚ) (grade : Grade) (knot_type : KnotType) : ℚ :=
  let grade_limits := KNOT_SIZE_LIMITS grade
  let knot_index := KNOT_TYPES.indexOf knot_type
  let pc := grade_limits.getD knot_index (0, 0)
  let max_size := pc.1 * width_mm + pc.2 + size_increase_mm width_mm
  if pc.1 = 0 ∧ pc.2 = 0 then 0
  else (pyRound max_size : ℚ)

/-- One grade's body of the loop in `_check_size_compliance`: the grade
passes when no knot type trips the NOT PERMITTED rule or exceeds its
allowed size. -/
def sizePass (width_mm : ℚ) (knot_data_size : KnotType → ℚ) (grade : Grade) : Bool :=
  KNOT_TYPES.all fun t =>
    let allowed_size := get_max_allowed_size width_mm grade t
    if allowed_size = 0 ∧ knot_data_size t > 0 then false
    else if knot_data_size t > allowed_size then false
    else true

/-- `_check_size_compliance`: the list of grades whose size limits the
face satisfies, in `GRADES` order. -/
def check_size_compliance (width_mm : ℚ) (knot_data_size : KnotType → ℚ) : List Grade :=
  GRADES.filter (sizePass width_mm knot_data_size)

/-- Per-face knot counts (`knot_data_number` dict): total knots and
unsound/missing knots. -/
structure KnotDataNumber where
  total : ℕ
  unsound_only : ℕ
deriving DecidableEq, Repr

/-- Note C in `_check_number_compliance`:
`number_increase_factor = 1.5 if width > 225 else 1.0`. -/
def number_increase_factor (width_mm : ℚ) : ℚ :=
  if width_mm > 225 then 3/2 else 1

/-- One grade's body of the loop in `_check_number_compliance`: the total
count must not exceed `int(total_limit * number_increase_factor)` (no
limit when infinite) and the unsound count must not exceed the
poor-quality limit. -/
def numberPass (width_mm : ℚ) (kdn : KnotDataNumber) (grade : Grade) : Bool :=
  let limits := KNOT_NUMBER_LIMITS grade
  let totalOk : Bool :=
    match limits.1 with
    | none => true
    | some total_limit =>
        decide ¬((kdn.total : ℚ) > (pyInt (total_limit * number_increase_factor width_mm) : ℚ))
  let poorOk : Bool :=
    match limits.2 with
    | none => true
    | some poor_limit => decide ¬((kdn.unsound_only : ℚ) > poor_limit)
  totalOk && poorOk

/-- `_check_number_compliance`: the list of grades whose frequency limits
the face satisfies, in `GRADES` order. -/
def check_number_compliance (width_mm : ℚ) (kdn : KnotDataNumber) : List Grade :=
  GRADES.filter (numberPass width_mm kdn)

/-- `_determine_single_face_grade`: first grade passing both checks;
`none` models the `"Fails G2-4"` outcome. -/
def determine_single_face_grade (width_mm : ℚ) (knot_data_size : KnotType → ℚ)
    (kdn : KnotDataNumber) : Option Grade :=
  (GRADES.filter fun g =>
    decide (g ∈ check_size_compliance width_mm knot_data_size) &&
    decide (g ∈ check_number_compliance width_mm kdn)).head?

/-- A defect measurement tuple `(defect_type, size_mm, percentage)`. -/
structure Measurement where
  defect_type : String
  size_mm : ℚ
  percentage : ℚ
deriving DecidableEq, Repr

/-- The defect-type-to-knot-type mapping in
`convert_measurements_to_knot_data`; unknown labels default to
Unsound/Missing, the same bucket as the explicit unsound aliases. -/
def mapDefectType (s : String) : KnotType :=
  if s ∈ ["Sound_Knot", "Sound Knot", "live_knot", "live knot"] then .sound
  else if s ∈ ["Dead_Knot", "Dead Knot", "dead_knot", "dead knot"] then .dead
  else .unsound

/-- The `knot_data_size` dict built by `convert_measurements_to_knot_data`:
per knot type, the running max of matching sizes, starting from 0. -/
def knot_data_size_of (ms : List Measurement) (t : KnotType) : ℚ :=
  ms.foldl (fun acc m => if mapDefectType m.defect_type = t then max acc m.size_mm else acc) 0

/-- The `knot_data_number` dict built by
`convert_measurements_to_knot_data`: total count and unsound-only count. -/
def knot_data_number_of (ms : List Measurement) : KnotDataNumber :=
  { total := ms.length
    unsound_only := (ms.filter fun m => mapDefectType m.defect_type = .unsound).length }

/-- Collapse the `"Fails G2-4"` outcome (`none`) to G2-4, as
`determine_surface_grade` does. -/
def faceGradeOf : Option Grade → Grade
  | some g => g
  | none => .g24

/-- `determine_surface_grade`: best grade on no defects, otherwise the
single-face grade with `"Fails G2-4"` collapsed to G2-4. -/
def determine_surface_grade (width_mm : ℚ) (ms : List Measurement) : Grade :=
  if ms.isEmpty then .g20
  else faceGradeOf
    (determine_single_face_grade width_mm (knot_data_size_of ms) (knot_data_number_of ms))

/-- Spec-side table: the `percentOfWidth(grade, category)` coefficient of
the documented size formula, read off the spec's limit table. -/
def percentOfWidth (g : Grade) (t : KnotType) : ℚ :=
  ((KNOT_SIZE_LIMITS g).getD (KNOT_TYPES.indexOf t) (0, 0)).1

/-- Spec-side table: the `constantMm(grade, category)` constant of the
documented size formula, read off the spec's limit table. -/
def constantMm (g : Grade) (t : KnotType) : ℚ :=
  ((KNOT_SIZE_LIMITS g).getD (KNOT_TYPES.indexOf t) (0, 0)).2

/-- Helper for reasoning about `List.head?` of a filter over the concrete
five-element `GRADES` list: the head selected by five pass/fail bits. -/
def pick (b0 b1 b2 b3 b4 : Bool) : Option Grade :=
  if b0 then some .g20
  else if b1 then some .g21
  else if b2 then some .g22
  else if b3 then some .g23
  else if b4 then some .g24
  else none

/-- Index of a face-grade outcome, with `none` (the `"Fails G2-4"` case,
collapsed to G2-4 by `determine_surface_grade`) at index 4. -/
def faceIdx : Option Grade → ℕ
  | some g => gradeIdx g
  | none => 4

/-! ## Frame analysis: confidence gate (`App.analyze_frame`) -/

/-- A raw model detection as consumed by the gating stage of
`App.analyze_frame`: its class label and confidence score. -/
structure RawDetection where
  label : String
  confidence : ℚ
deriving DecidableEq, Repr

/-- `App.DETECTION_THRESHOLDS["MIN_CONFIDENCE"] = 0.25`. -/
def MIN_CONFIDENCE : ℚ := 1/4

/-- The confidence-gating stage of `App.analyze_frame`: skip a detection
when `confidence != 0.0 and confidence < MIN_CONFIDENCE` (exact zero is
kept as a documented detector workaround). -/
def confidence_gate (dets : List RawDetection) : List RawDetection :=
  dets.filter fun d =>
    if d.confidence ≠ 0 ∧ d.confidence < MIN_CONFIDENCE then false else true

/-! ## Geometry: boxes, ROIs, overlap tests -/

/-- An axis-aligned box in corner form `[x1, y1, x2, y2]`. -/
structure Box where
  x1 : ℚ
  y1 : ℚ
  x2 : ℚ
  y2 : ℚ
deriving DecidableEq, Repr

/-- An ROI rectangle in `(x, y, w, h)` form. -/
structure Roi where
  x : ℚ
  y : ℚ
  w : ℚ
  h : ℚ
deriving DecidableEq, Repr

/-- `App.bbox_inside_roi(bbox, roi, overlap_threshold)`: `None` ROI
accepts everything; otherwise accept when the intersection covers at
least the threshold fraction of the detection box's own area. -/
def bbox_inside_roi (bbox : Box) (roi : Option Roi) (overlap_threshold : ℚ) : Bool :=
  match roi with
  | none => true
  | some r =>
    let roi_x2 := r.x + r.w
    let roi_y2 := r.y + r.h
    let intersect_x1 := max bbox.x1 r.x
    let intersect_y1 := max bbox.y1 r.y
    let intersect_x2 := min bbox.x2 roi_x2
    let intersect_y2 := min bbox.y2 roi_y2
    if intersect_x2 ≤ intersect_x1 ∨ intersect_y2 ≤ intersect_y1 then false
    else
      let intersect_area := (intersect_x2 - intersect_x1) * (intersect_y2 - intersect_y1)
      let det_area := (bbox.x2 - bbox.x1) * (bbox.y2 - bbox.y1)
      if det_area ≤ 0 then false
      else decide (intersect_area / det_area ≥ overlap_threshold)

/-- Spec-side `overlapRatio(detectionBox, roiBox)`: intersection area
divided by the detection box's own area (not the union). -/
def overlapRatio (bbox : Box) (r : Roi) : ℚ :=
  let iw := min bbox.x2 (r.x + r.w) - max bbox.x1 r.x
  let ih := min bbox.y2 (r.y + r.h) - max bbox.y1 r.y
  (max iw 0 * max ih 0) / ((bbox.x2 - bbox.x1) * (bbox.y2 - bbox.y1))

/-- `App._check_bbox_intersection`: negation of the four
strict separation tests. -/
def check_bbox_intersection (a b : Box) : Bool :=
  let no_intersection :=
    a.x2 < b.x1 ∨ a.x1 > b.x2 ∨ a.y2 < b.y1 ∨ a.y1 > b.y2
  !(decide no_intersection)

/-- `ColorWoodDetector.check_roi_collision`: standard strict AABB
overlap test on `(x, y, w, h)` rectangles. -/
def check_roi_collision (r1 r2 : Roi) : Bool :=
  decide (r1.x < r2.x + r2.w ∧ r1.x + r1.w > r2.x ∧
          r1.y < r2.y + r2.h ∧ r1.y + r1.h > r2.y)

/-- Spec-side notion for C8: the two boxes share an intersection of
non-zero area (touching edges excluded). -/
def nonZeroAreaIntersect (a b : Box) : Prop :=
  max a.x1 b.x1 < min a.x2 b.x2 ∧ max a.y1 b.y1 < min a.y2 b.y2

/-! ## Wood-width authority (`ColorWoodDetector`) -/

/-- The two cameras of the rig. -/
inductive Camera where
  | top | bottom
deriving DecidableEq, Repr

/-- One wood candidate's bounding box `(x, y, w, h)` in pixels. -/
structure WoodCandidate where
  x : ℚ
  y : ℚ
  w : ℚ
  h : ℚ
deriving DecidableEq, Repr

/-- The measured pixel-per-millimetre factors
(`pixel_per_mm_top = 2.96`, `pixel_per_mm_bottom = 3.5`). -/
def pixel_per_mm : Camera → ℚ
  | .top => 296/100
  | .bottom => 7/2

/-- `ColorWoodDetector.calculate_width_mm`: pixels divided by the
camera's pixel-per-mm factor. -/
def calculate_width_mm (bbox_pixels : ℚ) (camera : Camera) : ℚ :=
  bbox_pixels / pixel_per_mm camera

/-- The wood-width state: the global `WOOD_PALLET_WIDTH_MM` plus the
per-camera `detected_wood_width_mm` entries. -/
structure WoodWidthState where
  global_width : ℚ
  detected_top : ℚ
  detected_bottom : ℚ
deriving DecidableEq, Repr

/-- Module-level initial state: `WOOD_PALLET_WIDTH_MM = 0` and
`detected_wood_width_mm = \x7b'top': 0, 'bottom': 0\x7d`. -/
def initialWoodState : WoodWidthState :=
  { global_width := 0, detected_top := 0, detected_bottom := 0 }

/-- `ColorWoodDetector.update_wood_width_dynamic`: with a non-empty
candidate list, derive the width from the best candidate's bbox height
and store it for the camera; only the bottom camera also updates the
global width.  (The `_validate_wood_width_sync` call only re-asserts
equalities that already hold and changes nothing.) -/
def update_wood_width_dynamic (s : WoodWidthState) (camera : Camera)
    (wood_candidates : List WoodCandidate) : WoodWidthState :=
  match wood_candidates with
  | [] => s
  | candidate :: _ =>
    let detected_width_mm := calculate_width_mm candidate.h camera
    match camera with
    | .bottom =>
        { s with detected_bottom := detected_width_mm, global_width := detected_width_mm }
    | .top =>
        { s with detected_top := detected_width_mm }

/-- A detection cycle: which camera reported, with which candidates. -/
def runWoodUpdates (s : WoodWidthState) (events : List (Camera × List WoodCandidate)) :
    WoodWidthState :=
  events.foldl (fun st e => update_wood_width_dynamic st e.1 e.2) s

/-- Width an event would publish globally: some value only for a
bottom-camera event with a non-empty candidate list. -/
def authWidth (e : Camera × List WoodCandidate) : Option ℚ :=
  match e.1, e.2 with
  | .bottom, candidate :: _ => some (calculate_width_mm candidate.h .bottom)
  | _, _ => none

/-- The width of the most recent authoritative detection in an event
sequence, if any. -/
def lastAuthWidth : List (Camera × List WoodCandidate) → Option ℚ
  | [] => none
  | e :: rest =>
    match lastAuthWidth rest with
    | some w => some w
    | none => authWidth e

/-- `ColorWoodDetector.get_wood_width_for_grading`: the global width when
positive, else the fallback. -/
def get_wood_width_for_grading (s : WoodWidthState) (fallback_mm : ℚ) : ℚ :=
  if s.global_width > 0 then s.global_width else fallback_mm

/-! ## Detection deduplication (`DetectionDeduplicator`) -/

/-- A deduplicator detection record: timestamp (modelled directly in
seconds, the value `_timestamp_to_seconds` extracts from the ISO
string), defect type, size, and optional bounding box. -/
structure DedupDetection where
  timestamp : ℚ
  defect_type : String
  size_mm : ℚ
  bbox : Option Box
deriving DecidableEq, Repr

/-- `DetectionDeduplicator._calculate_bbox_iou`: intersection over union
of two corner-form boxes, 0 on empty intersection or non-positive
union. -/
def calculate_bbox_iou (b1 b2 : Box) : ℚ :=
  let x1_i := max b1.x1 b2.x1
  let y1_i := max b1.y1 b2.y1
  let x2_i := min b1.x2 b2.x2
  let y2_i := min b1.y2 b2.y2
  if x2_i ≤ x1_i ∨ y2_i ≤ y1_i then 0
  else
    let intersection := (x2_i - x1_i) * (y2_i - y1_i)
    let area1 := (b1.x2 - b1.x1) * (b1.y2 - b1.y1)
    let area2 := (b2.x2 - b2.x1) * (b2.y2 - b2.y1)
    let union := area1 + area2 - intersection
    if union > 0 then intersection / union else 0

/-- The per-member body of the loop in
`DetectionDeduplicator._should_merge_with_cluster`: same defect type,
size difference within the spatial threshold, and, when both carry
boxes, IoU strictly above 0.5 (without both boxes the type-and-size
match suffices). -/
def memberMatch (spatial_threshold_mm : ℚ) (det c : DedupDetection) : Bool :=
  (decide (det.defect_type = c.defect_type) &&
   decide (|det.size_mm - c.size_mm| ≤ spatial_threshold_mm)) &&
  (match det.bbox, c.bbox with
   | some b1, some b2 => decide (calculate_bbox_iou b1 b2 > 1/2)
   | _, _ => true)

/-- `DetectionDeduplicator._should_merge_with_cluster`: reject when the
time gap to the cluster's most recent member exceeds the temporal
threshold, otherwise accept when some member matches. -/
def should_merge_with_cluster (spatial_threshold_mm temporal_threshold_sec : ℚ)
    (det : DedupDetection) (cluster : List DedupDetection) : Bool :=
  match cluster.getLast? with
  | none => false
  | some last =>
    if |det.timestamp - last.timestamp| > temporal_threshold_sec then false
    else cluster.any (memberMatch spatial_threshold_mm det)

/-- The merge condition claimed by C6, which differs from the code only
in demanding IoU at least 0.5 rather than strictly above 0.5. -/
def claimedMergeCond (spatial_threshold_mm temporal_threshold_sec : ℚ)
    (det : DedupDetection) (cluster : List DedupDetection) : Prop :=
  ∃ last, cluster.getLast? = some last ∧
    |det.timestamp - last.timestamp| ≤ temporal_threshold_sec ∧
    ∃ c ∈ cluster,
      det.defect_type = c.defect_type ∧
      |det.size_mm - c.size_mm| ≤ spatial_threshold_mm ∧
      ∀ b1 b2, det.bbox = some b1 → c.bbox = some b2 → calculate_bbox_iou b1 b2 ≥ 1/2

/-! ## Greedy non-max suppression (`App.filter_overlapping_detections`) -/

/-- A detection tuple `(bbox, defect_type, size_mm, confidence)` as fed
to `App.filter_overlapping_detections`. -/
structure NmsDetection where
  bbox : Box
  defect_type : String
  size_mm : ℚ
  confidence : ℚ
deriving DecidableEq, Repr

/-- The inner `calculate_iou` of `App.filter_overlapping_detections`:
intersection over union, 0 on empty intersection or non-positive
union. -/
def calculate_iou (box1 box2 : Box) : ℚ :=
  let x1_i := max box1.x1 box2.x1
  let y1_i := max box1.y1 box2.y1
  let x2_i := min box1.x2 box2.x2
  let y2_i := min box1.y2 box2.y2
  if x2_i ≤ x1_i ∨ y2_i ≤ y1_i then 0
  else
    let intersection := (x2_i - x1_i) * (y2_i - y1_i)
    let area1 := (box1.x2 - box1.x1) * (box1.y2 - box1.y1)
    let area2 := (box2.x2 - box2.x1) * (box2.y2 - box2.y1)
    let union := area1 + area2 - intersection
    if union > 0 then intersection / union else 0

/-- Order used by `sorted(detections, key=lambda x: x[3], reverse=True)`:
`a` may precede `b` when `a`'s confidence is at least `b`'s.  Python's
sort is stable, as is `List.mergeSort`. -/
def nmsLe (a b : NmsDetection) : Bool :=
  decide (b.confidence ≤ a.confidence)

/-- The `is_overlapping` test of the greedy loop: does the candidate
overlap some already-kept detection above the threshold. -/
def nmsOverlaps (overlap_threshold : ℚ) (kept : List NmsDetection) (d : NmsDetection) : Bool :=
  kept.any fun s => decide (calculate_iou d.bbox s.bbox > overlap_threshold)

/-- The greedy loop of `App.filter_overlapping_detections`: walk the
sorted list, appending each detection that does not overlap an
already-kept one. -/
def nmsLoop (overlap_threshold : ℚ) : List NmsDetection → List NmsDetection → List NmsDetection
  | kept, [] => kept
  | kept, d :: rest =>
    if nmsOverlaps overlap_threshold kept d then nmsLoop overlap_threshold kept rest
    else nmsLoop overlap_threshold (kept ++ [d]) rest

/-- `App.filter_overlapping_detections`: lists of length at most one are
returned unchanged; otherwise sort by confidence descending (stable) and
run the greedy loop. -/
def filter_overlapping_detections (dets : List NmsDetection) (overlap_threshold : ℚ) :
    List NmsDetection :=
  if dets.length ≤ 1 then dets
  else nmsLoop overlap_threshold [] (dets.mergeSort nmsLe)

/-! ## Final two-face grade combination (`App.determine_final_grade`) -/

/-- `grade_hierarchy = [GRADE_G2_0, ..., GRADE_G2_4]` as the literal
grade strings. -/
def grade_hierarchy : List String := ["G2-0", "G2-1", "G2-2", "G2-3", "G2-4"]

/-- `App.determine_final_grade`: `None` becomes `"G2-0"`, a string
outside the hierarchy gets index 0, and the result is the
higher-indexed (worse) of the two grades. -/
def determine_final_grade (top_grade bottom_grade : Option String) : String :=
  let t := top_grade.getD "G2-0"
  let b := bottom_grade.getD "G2-0"
  let top_index := if t ∈ grade_hierarchy then grade_hierarchy.indexOf t else 0
  let bottom_index := if b ∈ grade_hierarchy then grade_hierarchy.indexOf b else 0
  grade_hierarchy.getD (max top_index bottom_index) "G2-0"

/-! ## Concrete inputs used by counterexamples and witnesses -/

/-- View an `(x, y, w, h)` rectangle as a corner-form box. -/
def roiToBox (r : Roi) : Box :=
  { x1 := r.x, y1 := r.y, x2 := r.x + r.w, y2 := r.y + r.h }

/-- Scenario of C9: seven small defects on a 200mm-wide face, one of
them unsound. -/
def c9Measurements : List Measurement :=
  [⟨"Sound_Knot", 5, 1⟩, ⟨"Sound_Knot", 5, 1⟩, ⟨"Sound_Knot", 5, 1⟩,
   ⟨"Sound_Knot", 5, 1⟩, ⟨"Sound_Knot", 5, 1⟩, ⟨"Sound_Knot", 5, 1⟩,
   ⟨"Unsound_Knot", 5, 1⟩]

/-- Incoming detection whose box has IoU exactly 1/2 with
`c6ClusterMember`. -/
def c6Det : DedupDetection :=
  { timestamp := 0, defect_type := "Dead_Knot", size_mm := 5, bbox := some ⟨0, 0, 1, 1⟩ }

/-- Cluster member for the C6 counterexample. -/
def c6ClusterMember : DedupDetection :=
  { timestamp := 0, defect_type := "Dead_Knot", size_mm := 5, bbox := some ⟨0, 0, 1, 2⟩ }

/-- Incoming detection with the same box as `c6WitnessMember`
(IoU 1). -/
def c6WitnessDet : DedupDetection :=
  { timestamp := 0, defect_type := "Dead_Knot", size_mm := 5, bbox := some ⟨0, 0, 2, 2⟩ }

/-- Cluster member for the C6 amended-claim witness. -/
def c6WitnessMember : DedupDetection :=
  { timestamp := 0, defect_type := "Dead_Knot", size_mm := 5, bbox := some ⟨0, 0, 2, 2⟩ }

/-- Single detection used by the C7 witness. -/
def c7Det : NmsDetection :=
  { bbox := ⟨0, 0, 1, 1⟩, defect_type := "Sound_Knot", size_mm := 5, confidence := 1 }

/-- Zero-confidence detection used by the C2 witness. -/
def c2Det : RawDetection :=
  { label := "Dead_Knot", confidence := 0 }

/-- Pointwise relation for C5: same defect type, size at most the
other's. -/
def measLe (a b : Measurement) : Prop :=
  a.defect_type = b.defect_type ∧ a.size_mm ≤ b.size_mm

/-! ## Helper lemmas -/

theorem mem_GRADES (g : Grade) : g ∈ GRADES := by cases g <;> decide

theorem mem_KNOT_TYPES (t : KnotType) : t ∈ KNOT_TYPES := by cases t <;> decide

theorem mem_check_size_compliance (w : ℚ) (kds : KnotType → ℚ) (g : Grade) :
    g ∈ check_size_compliance w kds ↔ sizePass w kds g = true := by
  rw [check_size_compliance, List.mem_filter]
  exact ⟨fun h => h.2, fun h => ⟨mem_GRADES g, h⟩⟩

theorem mem_check_number_compliance (w : ℚ) (kdn : KnotDataNumber) (g : Grade) :
    g ∈ check_number_compliance w kdn ↔ numberPass w kdn g = true := by
  rw [check_number_compliance, List.mem_filter]
  exact ⟨fun h => h.2, fun h => ⟨mem_GRADES g, h⟩⟩

theorem filter_head_pick (q : Grade → Bool) :
    (GRADES.filter q).head? = pick (q .g20) (q .g21) (q .g22) (q .g23) (q .g24) := by
  cases h0 : q .g20 <;> cases h1 : q .g21 <;> cases h2 : q .g22 <;>
    cases h3 : q .g23 <;> cases h4 : q .g24 <;>
    simp [GRADES, pick, List.filter_cons, h0, h1, h2, h3, h4]

theorem pick_mono (b0 b1 b2 b3 b4 c0 c1 c2 c3 c4 : Bool)
    (h0 : c0 = true → b0 = true) (h1 : c1 = true → b1 = true)
    (h2 : c2 = true → b2 = true) (h3 : c3 = true → b3 = true)
    (h4 : c4 = true → b4 = true) :
    faceIdx (pick b0 b1 b2 b3 b4) ≤ faceIdx (pick c0 c1 c2 c3 c4) := by
  revert h0 h1 h2 h3 h4
  revert b0 b1 b2 b3 b4 c0 c1 c2 c3 c4
  decide

theorem determine_single_face_grade_eq_pick (w : ℚ) (kds : KnotType → ℚ)
    (kdn : KnotDataNumber) :
    determine_single_face_grade w kds kdn =
      pick (sizePass w kds .g20 && numberPass w kdn .g20)
        (sizePass w kds .g21 && numberPass w kdn .g21)
        (sizePass w kds .g22 && numberPass w kdn .g22)
        (sizePass w kds .g23 && numberPass w kdn .g23)
        (sizePass w kds .g24 && numberPass w kdn .g24) := by
  rw [determine_single_face_grade]
  have hq : (GRADES.filter fun g =>
      decide (g ∈ check_size_compliance w kds) && decide (g ∈ check_number_compliance w kdn)) =
      GRADES.filter fun g => sizePass w kds g && numberPass w kdn g := by
    apply List.filter_congr
    intro g _
    rw [Bool.eq_iff_iff]
    simp [mem_check_size_compliance, mem_check_number_compliance]
  rw [hq, filter_head_pick]

theorem gradeIdx_faceGradeOf (o : Option Grade) : gradeIdx (faceGradeOf o) = faceIdx o := by
  cases o <;> rfl

theorem pyRound_intCast (n : ℤ) : pyRound (n : ℚ) = n := by
  rw [pyRound]
  simp only [Int.floor_intCast]
  rw [if_pos]
  rw [sub_self]
  norm_num

theorem get_max_allowed_size_formula (w : ℚ) (g : Grade) (t : KnotType) :
    get_max_allowed_size w g t =
      (if percentOfWidth g t = 0 ∧ constantMm g t = 0 then 0
       else (pyRound (percentOfWidth g t * w + constantMm g t + size_increase_mm w) : ℚ)) := by
  cases g <;> cases t <;> rfl

theorem size_increase_200 : size_increase_mm 200 = 10 := by
  rw [size_increase_mm, if_pos]
  norm_num

theorem gmas_eval (w : ℚ) (g : Grade) (t : KnotType) (n : ℤ)
    (hsent : ¬(percentOfWidth g t = 0 ∧ constantMm g t = 0))
    (hn : pyRound (percentOfWidth g t * w + constantMm g t + size_increase_mm w) = n) :
    get_max_allowed_size w g t = (n : ℚ) := by
  rw [get_max_allowed_size_formula, if_neg hsent, hn]

/-! ## C1 -/

/-- Claim C1, corrected: the allowed size that
`get_max_allowed_size` computes is the Python-rounded value of
`percentOfWidth * width + constantMm + (10 if width ≥ 180 else 0)`, not
that exact value; the NOT PERMITTED sentinel gives 0 and then any
positive observed size fails the grade. -/
theorem C1_max_allowed_size_rounded (w : ℚ) (g : Grade) (t : KnotType)
    (kds : KnotType → ℚ) :
    (get_max_allowed_size w g t =
      (if percentOfWidth g t = 0 ∧ constantMm g t = 0 then 0
       else (pyRound (percentOfWidth g t * w + constantMm g t +
         (if w ≥ 180 then 10 else 0)) : ℚ))) ∧
    (get_max_allowed_size w g t = 0 → 0 < kds t → g ∉ check_size_compliance w kds) := by
  constructor
  · cases g <;> cases t <;> rfl
  · intro h0 hpos
    rw [mem_check_size_compliance, sizePass, List.all_eq_true]
    intro hall
    have ht := hall t (mem_KNOT_TYPES t)
    rw [h0] at ht
    simp [hpos] at ht

/-- Claim C1 as stated is false: at width 105mm, grade G2-0, Sound
Knots, the formula gives 20.5 but the code returns round(20.5) = 20. -/
theorem C1_counterexample :
    get_max_allowed_size 105 .g20 .sound ≠
      percentOfWidth .g20 .sound * 105 + constantMm .g20 .sound +
        (if (105 : ℚ) ≥ 180 then 10 else 0) := by
  have hp : percentOfWidth .g20 .sound = 1/10 := rfl
  have hc : constantMm .g20 .sound = 10 := rfl
  have hfloor : ⌊(41/2 : ℚ)⌋ = 20 := by
    rw [Int.floor_eq_iff]
    norm_num
  have hround : pyRound (41/2 : ℚ) = 20 := by
    rw [pyRound, hfloor]
    norm_num
  have hlhs : get_max_allowed_size 105 .g20 .sound = 20 := by
    rw [get_max_allowed_size_formula, hp, hc, if_neg (by norm_num)]
    rw [show size_increase_mm 105 = 0 from by rw [size_increase_mm, if_neg]; norm_num]
    rw [show (1 : ℚ)/10 * 105 + 10 + 0 = 41/2 from by norm_num, hround]
    norm_num
  rw [hlhs, hp, hc]
  norm_num

/-- Witness for `C1_max_allowed_size_rounded`: with the sentinel limit
for Unsound/Missing in G2-0 and a 5mm unsound knot, grade G2-0 is
rejected. -/
theorem C1_witness :
    Grade.g20 ∉ check_size_compliance 100 (fun _ => 5) := by
  exact (C1_max_allowed_size_rounded 100 .g20 .unsound (fun _ => 5)).2 (by decide) (by norm_num)

/-! ## C2 -/

/-- Claim C2, confirmed: after the confidence gate every survivor has
confidence 0 or at least `MIN_CONFIDENCE`; every detection with
confidence strictly between 0 and `MIN_CONFIDENCE` is dropped; every
zero-confidence detection survives the stage. -/
theorem C2_confidence_gate (dets : List RawDetection) :
    (∀ d ∈ confidence_gate dets, d.confidence = 0 ∨ MIN_CONFIDENCE ≤ d.confidence) ∧
    (∀ d, 0 < d.confidence → d.confidence < MIN_CONFIDENCE → d ∉ confidence_gate dets) ∧
    (∀ d ∈ dets, d.confidence = 0 → d ∈ confidence_gate dets) := by
  refine ⟨?_, ?_, ?_⟩
  · intro d hd
    rw [confidence_gate, List.mem_filter] at hd
    by_cases h0 : d.confidence = 0
    · exact Or.inl h0
    · refine Or.inr ?_
      by_contra hlt
      push_neg at hlt
      simp [h0, hlt] at hd
  · intro d hdpos hdlt hd
    rw [confidence_gate, List.mem_filter] at hd
    have hne : d.confidence ≠ 0 := ne_of_gt hdpos
    simp [hne, hdlt] at hd
  · intro d hd h0
    rw [confidence_gate, List.mem_filter]
    refine ⟨hd, ?_⟩
    simp [h0, MIN_CONFIDENCE]

/-- Witness for `C2_confidence_gate`: a zero-confidence detection
survives the gate. -/
theorem C2_witness : c2Det ∈ confidence_gate [c2Det] := by
  exact (C2_confidence_gate [c2Det]).2.2 c2Det (by simp) rfl

/-! ## C9 -/

/-- Claim C9, confirmed: at width 200mm with 7 defects (1 unsound, all
sizes within the G2-3 limits), the frequency check rejects G2-2 and
accepts G2-3, and the face grade is G2-3. -/
theorem C9_frequency_scenario :
    Grade.g22 ∉ check_number_compliance 200 ⟨7, 1⟩ ∧
    Grade.g23 ∈ check_number_compliance 200 ⟨7, 1⟩ ∧
    determine_surface_grade 200 c9Measurements = .g23 := by
  have hn20 : numberPass 200 ⟨7, 1⟩ .g20 = false := by
    norm_num [numberPass, KNOT_NUMBER_LIMITS, number_increase_factor, pyInt]
  have hn21 : numberPass 200 ⟨7, 1⟩ .g21 = false := by
    norm_num [numberPass, KNOT_NUMBER_LIMITS, number_increase_factor, pyInt]
  have hn22 : numberPass 200 ⟨7, 1⟩ .g22 = false := by
    norm_num [numberPass, KNOT_NUMBER_LIMITS, number_increase_factor, pyInt]
  have hn23 : numberPass 200 ⟨7, 1⟩ .g23 = true := by
    norm_num [numberPass, KNOT_NUMBER_LIMITS, number_increase_factor, pyInt]
  have hn24 : numberPass 200 ⟨7, 1⟩ .g24 = true := by
    norm_num [numberPass, KNOT_NUMBER_LIMITS, number_increase_factor, pyInt]
  refine ⟨?_, ?_, ?_⟩
  · rw [mem_check_number_compliance, hn22]
    simp
  · rw [mem_check_number_compliance, hn23]
  · -- Knot data of the scenario.
    have hkds_s : knot_data_size_of c9Measurements .sound = 5 := by decide
    have hkds_d : knot_data_size_of c9Measurements .dead = 0 := by decide
    have hkds_u : knot_data_size_of c9Measurements .unsound = 5 := by decide
    have hkdn : knot_data_number_of c9Measurements = ⟨7, 1⟩ := by decide
    -- Allowed sizes at the relevant grades.
    have ha22s : get_max_allowed_size 200 .g22 .sound = 65 := by
      rw [gmas_eval 200 .g22 .sound 65
        (by rw [show percentOfWidth Grade.g22 KnotType.sound = 1/10 from rfl]; norm_num) ?_]
      · norm_num
      · rw [show percentOfWidth .g22 .sound = 1/10 from rfl,
          show constantMm .g22 .sound = 35 from rfl, size_increase_200,
          show (1 : ℚ)/10 * 200 + 35 + 10 = ((65 : ℤ) : ℚ) from by norm_num, pyRound_intCast]
    have ha22d : get_max_allowed_size 200 .g22 .dead = 50 := by
      rw [gmas_eval 200 .g22 .dead 50
        (by rw [show percentOfWidth Grade.g22 KnotType.dead = 1/10 from rfl]; norm_num) ?_]
      · norm_num
      · rw [show percentOfWidth .g22 .dead = 1/10 from rfl,
          show constantMm .g22 .dead = 20 from rfl, size_increase_200,
          show (1 : ℚ)/10 * 200 + 20 + 10 = ((50 : ℤ) : ℚ) from by norm_num, pyRound_intCast]
    have ha22u : get_max_allowed_size 200 .g22 .unsound = 45 := by
      rw [gmas_eval 200 .g22 .unsound 45
        (by rw [show percentOfWidth Grade.g22 KnotType.unsound = 1/10 from rfl]; norm_num) ?_]
      · norm_num
      · rw [show percentOfWidth .g22 .unsound = 1/10 from rfl,
          show constantMm .g22 .unsound = 15 from rfl, size_increase_200,
          show (1 : ℚ)/10 * 200 + 15 + 10 = ((45 : ℤ) : ℚ) from by norm_num, pyRound_intCast]
    have ha23s : get_max_allowed_size 200 .g23 .sound = 80 := by
      rw [gmas_eval 200 .g23 .sound 80
        (by rw [show percentOfWidth Grade.g23 KnotType.sound = 1/10 from rfl]; norm_num) ?_]
      · norm_num
      · rw [show percentOfWidth .g23 .sound = 1/10 from rfl,
          show constantMm .g23 .sound = 50 from rfl, size_increase_200,
          show (1 : ℚ)/10 * 200 + 50 + 10 = ((80 : ℤ) : ℚ) from by norm_num, pyRound_intCast]
    have ha23d : get_max_allowed_size 200 .g23 .dead = 80 := by
      rw [gmas_eval 200 .g23 .dead 80
        (by rw [show percentOfWidth Grade.g23 KnotType.dead = 1/10 from rfl]; norm_num) ?_]
      · norm_num
      · rw [show percentOfWidth .g23 .dead = 1/10 from rfl,
          show constantMm .g23 .dead = 50 from rfl, size_increase_200,
          show (1 : ℚ)/10 * 200 + 50 + 10 = ((80 : ℤ) : ℚ) from by norm_num, pyRound_intCast]
    have ha23u : get_max_allowed_size 200 .g23 .unsound = 70 := by
      rw [gmas_eval 200 .g23 .unsound 70
        (by rw [show percentOfWidth Grade.g23 KnotType.unsound = 1/10 from rfl]; norm_num) ?_]
      · norm_num
      · rw [show percentOfWidth .g23 .unsound = 1/10 from rfl,
          show constantMm .g23 .unsound = 40 from rfl, size_increase_200,
          show (1 : ℚ)/10 * 200 + 40 + 10 = ((70 : ℤ) : ℚ) from by norm_num, pyRound_intCast]
    have ha20u : get_max_allowed_size 200 .g20 .unsound = 0 := rfl
    have ha21u : get_max_allowed_size 200 .g21 .unsound = 0 := rfl
    -- Size compliance per grade.
    have hs20 : sizePass 200 (knot_data_size_of c9Measurements) .g20 = false := by
      rw [sizePass]
      simp only [KNOT_TYPES, List.all_cons, List.all_nil, Bool.and_eq_false_iff]
      refine Or.inr (Or.inr (Or.inl ?_))
      rw [ha20u, hkds_u, if_pos (by norm_num)]
    have hs21 : sizePass 200 (knot_data_size_of c9Measurements) .g21 = false := by
      rw [sizePass]
      simp only [KNOT_TYPES, List.all_cons, List.all_nil, Bool.and_eq_false_iff]
      refine Or.inr (Or.inr (Or.inl ?_))
      rw [ha21u, hkds_u, if_pos (by norm_num)]
    have hs22 : sizePass 200 (knot_data_size_of c9Measurements) .g22 = true := by
      rw [sizePass]
      simp only [KNOT_TYPES, List.all_cons, List.all_nil]
      rw [ha22s, hkds_s, ha22d, hkds_d, ha22u, hkds_u]
      norm_num
    have hs23 : sizePass 200 (knot_data_size_of c9Measurements) .g23 = true := by
      rw [sizePass]
      simp only [KNOT_TYPES, List.all_cons, List.all_nil]
      rw [ha23s, hkds_s, ha23d, hkds_d, ha23u, hkds_u]
      norm_num
    -- Assemble the face grade.
    rw [determine_surface_grade, if_neg (by decide)]
    rw [hkdn, determine_single_face_grade_eq_pick]
    rw [hs20, hs21, hs22, hs23, hn20, hn21, hn22, hn23]
    rfl

/-! ## C10 -/

/-- Claim C10, confirmed: `determine_final_grade` treats `None` and
unrecognized grade strings as the best grade G2-0 before taking the
worse face: a hierarchy grade combined with `None` is returned
unchanged, and two unrecognized strings combine to `"G2-0"`. -/
theorem C10_final_grade_fail_open :
    (∀ g ∈ grade_hierarchy,
      determine_final_grade (some g) none = g ∧ determine_final_grade none (some g) = g) ∧
    (∀ s t : String, s ∉ grade_hierarchy → t ∉ grade_hierarchy →
      determine_final_grade (some s) (some t) = "G2-0") := by
  constructor
  · intro g hg
    fin_cases hg <;> exact ⟨by decide, by decide⟩
  · intro s t hs ht
    rw [determine_final_grade]
    simp only [Option.getD_some, if_neg hs, if_neg ht]
    rfl

/-- Witness for `C10_final_grade_fail_open`: combining G2-3 with a
missing face grade yields G2-3. -/
theorem C10_witness : determine_final_grade (some "G2-3") none = "G2-3" := by
  exact ((C10_final_grade_fail_open.1 "G2-3" (by decide)).1)

/-! ## C4 -/

theorem update_wood_width_global (s : WoodWidthState) (cam : Camera)
    (cands : List WoodCandidate) :
    (update_wood_width_dynamic s cam cands).global_width =
      (authWidth (cam, cands)).getD s.global_width := by
  cases cam <;> cases cands <;> rfl

theorem runWoodUpdates_global (evs : List (Camera × List WoodCandidate)) :
    ∀ s : WoodWidthState,
      (runWoodUpdates s evs).global_width = (lastAuthWidth evs).getD s.global_width := by
  induction evs with
  | nil => intro s; rfl
  | cons e rest ih =>
    intro s
    rw [runWoodUpdates, List.foldl_cons]
    have hstep := ih (update_wood_width_dynamic s e.1 e.2)
    rw [runWoodUpdates] at hstep
    rw [hstep, lastAuthWidth]
    cases hrest : lastAuthWidth rest with
    | some v => rfl
    | none =>
      simp only [Option.getD_none]
      rw [update_wood_width_global]

/-- Claim C4, confirmed: a top-camera update never changes the global
wood width; after any event sequence the global width is the width of
the most recent bottom-camera detection with candidates (0, the initial
value, if none); and with no authoritative detection grading falls back
to 100mm. -/
theorem C4_wood_width_authority :
    (∀ (s : WoodWidthState) (cands : List WoodCandidate),
      (update_wood_width_dynamic s .top cands).global_width = s.global_width) ∧
    (∀ evs, (runWoodUpdates initialWoodState evs).global_width =
      (lastAuthWidth evs).getD 0) ∧
    (∀ evs, lastAuthWidth evs = none →
      get_wood_width_for_grading (runWoodUpdates initialWoodState evs) 100 = 100) := by
  refine ⟨?_, ?_, ?_⟩
  · intro s cands
    rw [update_wood_width_global]
    cases cands <;> rfl
  · intro evs
    exact runWoodUpdates_global evs initialWoodState
  · intro evs hnone
    rw [get_wood_width_for_grading, runWoodUpdates_global evs initialWoodState, hnone]
    norm_num [initialWoodState]

/-! ## C3 -/

/-- Claim C3, confirmed: the ROI gate accepts unconditionally when the
Dynamic Wood ROI is `None`, and otherwise accepts exactly when the
intersection-over-detection-area ratio is at least 0.7. -/
theorem C3_roi_gate (b : Box) :
    bbox_inside_roi b none (7/10) = true ∧
    ∀ r : Roi, (bbox_inside_roi b (some r) (7/10) = true ↔ overlapRatio b r ≥ 7/10) := by
  refine ⟨rfl, fun r => ?_⟩
  by_cases hsep : min b.x2 (r.x + r.w) ≤ max b.x1 r.x ∨ min b.y2 (r.y + r.h) ≤ max b.y1 r.y
  · have hcode : bbox_inside_roi b (some r) (7/10) = false := by
      simp only [bbox_inside_roi]
      rw [if_pos hsep]
    rw [hcode]
    simp only [overlapRatio]
    rcases hsep with h | h
    · rw [max_eq_right (sub_nonpos.mpr h), zero_mul, zero_div]
      norm_num
    · rw [max_eq_right (sub_nonpos.mpr h), mul_zero, zero_div]
      norm_num
  · push_neg at hsep
    obtain ⟨hx, hy⟩ := hsep
    have hiw : (0 : ℚ) < min b.x2 (r.x + r.w) - max b.x1 r.x := sub_pos.mpr hx
    have hih : (0 : ℚ) < min b.y2 (r.y + r.h) - max b.y1 r.y := sub_pos.mpr hy
    have hbx : b.x1 < b.x2 :=
      lt_of_le_of_lt (le_max_left _ _) (lt_of_lt_of_le hx (min_le_left _ _))
    have hby : b.y1 < b.y2 :=
      lt_of_le_of_lt (le_max_left _ _) (lt_of_lt_of_le hy (min_le_left _ _))
    have hdet : (0 : ℚ) < (b.x2 - b.x1) * (b.y2 - b.y1) :=
      mul_pos (sub_pos.mpr hbx) (sub_pos.mpr hby)
    simp only [bbox_inside_roi, overlapRatio]
    rw [if_neg (by push_neg; exact ⟨lt_of_lt_of_le hx le_rfl, lt_of_lt_of_le hy le_rfl⟩)]
    rw [if_neg (not_le.mpr hdet)]
    rw [max_eq_left hiw.le, max_eq_left hih.le]
    simp

/-! ## C8 -/

/-- Claim C8 as stated is false: the lane-collision test
`_check_bbox_intersection` returns true for two boxes that merely touch
along an edge (zero-area intersection). -/
theorem C8_counterexample :
    check_bbox_intersection ⟨0, 0, 1, 1⟩ ⟨1, 0, 2, 1⟩ = true ∧
    ¬ nonZeroAreaIntersect ⟨0, 0, 1, 1⟩ ⟨1, 0, 2, 1⟩ := by
  refine ⟨by decide, by simp only [nonZeroAreaIntersect]; decide⟩

/-- Claim C8, corrected: the lane-collision test
`_check_bbox_intersection` uses non-strict comparisons, so it returns
true exactly when the closed boxes share at least one point — touching
edges DO count; the separate `check_roi_collision` helper is the one
with strict inequalities, and (for rectangles of positive size) it
returns true exactly on a non-zero-area intersection. -/
theorem C8_amended (a b : Box) (r1 r2 : Roi) :
    (a.x1 ≤ a.x2 → a.y1 ≤ a.y2 → b.x1 ≤ b.x2 → b.y1 ≤ b.y2 →
      (check_bbox_intersection a b = true ↔
        ∃ px py : ℚ,
          (a.x1 ≤ px ∧ px ≤ a.x2 ∧ a.y1 ≤ py ∧ py ≤ a.y2) ∧
          (b.x1 ≤ px ∧ px ≤ b.x2 ∧ b.y1 ≤ py ∧ py ≤ b.y2))) ∧
    (0 < r1.w → 0 < r1.h → 0 < r2.w → 0 < r2.h →
      (check_roi_collision r1 r2 = true ↔
        nonZeroAreaIntersect (roiToBox r1) (roiToBox r2))) := by
  constructor
  · intro hax hay hbx hby
    rw [check_bbox_intersection]
    simp only [Bool.not_eq_true', decide_eq_false_iff_not, not_or, not_lt]
    constructor
    · rintro ⟨h1, h2, h3, h4⟩
      refine ⟨max a.x1 b.x1, max a.y1 b.y1,
        ⟨le_max_left _ _, max_le hax h1, le_max_left _ _, max_le hay h3⟩,
        le_max_right _ _, max_le h2 hbx, le_max_right _ _, max_le h4 hby⟩
    · rintro ⟨px, py, ⟨h1, h2, h3, h4⟩, h5, h6, h7, h8⟩
      exact ⟨le_trans h5 h2, le_trans h1 h6, le_trans h7 h4, le_trans h3 h8⟩
  · intro hw1 hh1 hw2 hh2
    simp only [check_roi_collision, decide_eq_true_eq, nonZeroAreaIntersect, roiToBox,
      max_lt_iff, lt_min_iff]
    constructor
    · rintro ⟨h1, h2, h3, h4⟩
      refine ⟨⟨⟨?_, ?_⟩, ?_, ?_⟩, ⟨?_, ?_⟩, ?_, ?_⟩ <;> linarith
    · rintro ⟨⟨⟨g1, g2⟩, g3, g4⟩, ⟨g5, g6⟩, g7, g8⟩
      refine ⟨?_, ?_, ?_, ?_⟩ <;> linarith

/-- Witness for `C8_amended`: touching boxes share the corner point
(1, 0), and two genuinely overlapping lane rectangles collide. -/
theorem C8_witness :
    check_bbox_intersection ⟨0, 0, 1, 1⟩ ⟨1, 0, 2, 1⟩ = true ∧
    check_roi_collision ⟨0, 0, 2, 2⟩ ⟨1, 1, 2, 2⟩ = true := by
  constructor
  · exact ((C8_amended ⟨0, 0, 1, 1⟩ ⟨1, 0, 2, 1⟩ ⟨0, 0, 2, 2⟩ ⟨1, 1, 2, 2⟩).1
      (by norm_num) (by norm_num) (by norm_num) (by norm_num)).mpr
      ⟨1, 0, ⟨by norm_num, by norm_num, by norm_num, by norm_num⟩,
        by norm_num, by norm_num, by norm_num, by norm_num⟩
  · exact ((C8_amended ⟨0, 0, 1, 1⟩ ⟨1, 0, 2, 1⟩ ⟨0, 0, 2, 2⟩ ⟨1, 1, 2, 2⟩).2
      (by norm_num) (by norm_num) (by norm_num) (by norm_num)).mpr
      (by constructor <;> norm_num [roiToBox])

/-- Witness for `C4_wood_width_authority`: the empty event sequence has
no authoritative detection, so grading uses the 100mm fallback. -/
theorem C4_witness :
    get_wood_width_for_grading (runWoodUpdates initialWoodState []) 100 = 100 := by
  exact C4_wood_width_authority.2.2 [] rfl

/-! ## C6 -/

theorem memberMatch_iff (sp : ℚ) (det c : DedupDetection) :
    memberMatch sp det c = true ↔
      (det.defect_type = c.defect_type ∧ |det.size_mm - c.size_mm| ≤ sp ∧
       (match det.bbox, c.bbox with
        | some b1, some b2 => calculate_bbox_iou b1 b2 > 1/2
        | _, _ => True)) := by
  rcases hdb : det.bbox with _ | b1 <;> rcases hcb : c.bbox with _ | b2 <;>
    simp [memberMatch, hdb, hcb, and_assoc]

/-- Claim C6, corrected: the deduplicator merges a detection into the
current cluster iff the time gap to the most recent member is within
the temporal threshold and some member matches on type and size, with
IoU strictly greater than 0.5 (not at least 0.5) when both carry
bounding boxes; without both boxes the type-and-size match suffices. -/
theorem C6_should_merge (sp tp : ℚ) (det : DedupDetection)
    (cluster : List DedupDetection) (h : cluster ≠ []) :
    should_merge_with_cluster sp tp det cluster = true ↔
      (|det.timestamp - (cluster.getLast h).timestamp| ≤ tp ∧
       ∃ c ∈ cluster, det.defect_type = c.defect_type ∧ |det.size_mm - c.size_mm| ≤ sp ∧
         (match det.bbox, c.bbox with
          | some b1, some b2 => calculate_bbox_iou b1 b2 > 1/2
          | _, _ => True)) := by
  have hrw : should_merge_with_cluster sp tp det cluster =
      if |det.timestamp - (cluster.getLast h).timestamp| > tp then false
      else cluster.any (memberMatch sp det) := by
    rw [should_merge_with_cluster, List.getLast?_eq_getLast cluster h]
  rw [hrw]
  by_cases ht : |det.timestamp - (cluster.getLast h).timestamp| > tp
  · rw [if_pos ht]
    constructor
    · intro hfalse
      exact absurd hfalse (by simp)
    · rintro ⟨hle, -⟩
      exact absurd hle (not_le.mpr ht)
  · rw [if_neg ht]
    rw [List.any_eq_true]
    push_neg at ht
    constructor
    · rintro ⟨c, hc, hm⟩
      exact ⟨ht, c, hc, (memberMatch_iff sp det c).mp hm⟩
    · rintro ⟨-, c, hc, hm⟩
      exact ⟨c, hc, (memberMatch_iff sp det c).mpr hm⟩

/-- Claim C6 as stated is false: with both boxes present and IoU exactly
0.5 (and the time, type, and size conditions all satisfied), the
claimed merge condition holds but the code does not merge. -/
theorem C6_counterexample :
    claimedMergeCond 10 (1/2) c6Det [c6ClusterMember] ∧
    should_merge_with_cluster 10 (1/2) c6Det [c6ClusterMember] = false := by
  have hiou : calculate_bbox_iou ⟨0, 0, 1, 1⟩ ⟨0, 0, 1, 2⟩ = 1/2 := by
    norm_num [calculate_bbox_iou]
  constructor
  · refine ⟨c6ClusterMember, rfl, by norm_num [c6Det, c6ClusterMember],
      c6ClusterMember, List.mem_singleton_self _, rfl,
      by norm_num [c6Det, c6ClusterMember], ?_⟩
    intro b1 b2 h1 h2
    rw [show c6Det.bbox = some (⟨0, 0, 1, 1⟩ : Box) from rfl] at h1
    rw [show c6ClusterMember.bbox = some (⟨0, 0, 1, 2⟩ : Box) from rfl] at h2
    cases Option.some.inj h1
    cases Option.some.inj h2
    rw [hiou]
  · rw [should_merge_with_cluster]
    norm_num [List.getLast?_singleton, c6Det, c6ClusterMember, memberMatch, hiou]

/-- Witness for `C6_should_merge`: a detection with the identical box,
type, size and timestamp as the single cluster member (IoU 1) merges. -/
theorem C6_witness :
    should_merge_with_cluster 10 (1/2) c6WitnessDet [c6WitnessMember] = true := by
  refine (C6_should_merge 10 (1/2) c6WitnessDet [c6WitnessMember] (by simp)).mpr
    ⟨?_, c6WitnessMember, List.mem_singleton_self _, rfl,
      by norm_num [c6WitnessDet, c6WitnessMember], ?_⟩
  · norm_num [c6WitnessDet, c6WitnessMember]
  · show calculate_bbox_iou ⟨0, 0, 2, 2⟩ ⟨0, 0, 2, 2⟩ > 1/2
    norm_num [calculate_bbox_iou]

/-! ## C7 -/

theorem calculate_iou_comm (b1 b2 : Box) : calculate_iou b1 b2 = calculate_iou b2 b1 := by
  simp only [calculate_iou]
  rw [max_comm b1.x1 b2.x1, min_comm b1.x2 b2.x2, max_comm b1.y1 b2.y1, min_comm b1.y2 b2.y2,
    add_comm ((b1.x2 - b1.x1) * (b1.y2 - b1.y1)) ((b2.x2 - b2.x1) * (b2.y2 - b2.y1))]

theorem nmsLe_trans : ∀ (a b c : NmsDetection), nmsLe a b → nmsLe b c → nmsLe a c := by
  intro a b c hab hbc
  simp only [nmsLe, decide_eq_true_eq] at hab hbc ⊢
  exact le_trans hbc hab

theorem nmsLe_total : ∀ (a b : NmsDetection), nmsLe a b || nmsLe b a := by
  intro a b
  simp only [nmsLe]
  rcases le_total a.confidence b.confidence with h | h <;> simp [h]

theorem nmsLoop_sublist (thr : ℚ) :
    ∀ (ds kept : List NmsDetection), List.Sublist (nmsLoop thr kept ds) (kept ++ ds) := by
  intro ds
  induction ds with
  | nil => intro kept; simp [nmsLoop]
  | cons d rest ih =>
    intro kept
    rw [nmsLoop]
    by_cases ho : nmsOverlaps thr kept d
    · rw [if_pos ho]
      exact (ih kept).trans
        (List.Sublist.append_left (List.sublist_cons_self d rest) kept)
    · rw [if_neg ho]
      have hsub := ih (kept ++ [d])
      rw [List.append_assoc, List.singleton_append] at hsub
      exact hsub

theorem nmsLoop_pairwise (thr : ℚ) :
    ∀ (ds kept : List NmsDetection),
      List.Pairwise (fun a b => calculate_iou a.bbox b.bbox ≤ thr) kept →
      List.Pairwise (fun a b => calculate_iou a.bbox b.bbox ≤ thr) (nmsLoop thr kept ds) := by
  intro ds
  induction ds with
  | nil => intro kept hk; simpa [nmsLoop] using hk
  | cons d rest ih =>
    intro kept hk
    rw [nmsLoop]
    by_cases ho : nmsOverlaps thr kept d
    · rw [if_pos ho]
      exact ih kept hk
    · rw [if_neg ho]
      apply ih
      rw [List.pairwise_append]
      refine ⟨hk, List.pairwise_singleton _ _, ?_⟩
      intro a ha b hb
      rw [List.mem_singleton] at hb
      rw [hb]
      have hall : ∀ s ∈ kept, ¬(calculate_iou d.bbox s.bbox > thr) := by
        have ho' : nmsOverlaps thr kept d = false := Bool.not_eq_true _ ▸ eq_false_of_ne_true ho
        rw [nmsOverlaps, List.any_eq_false] at ho'
        intro s hs
        have := ho' s hs
        simpa using this
      rw [calculate_iou_comm]
      exact not_lt.mp (hall a ha)

theorem nmsLoop_of_compat (thr : ℚ) :
    ∀ (ds kept : List NmsDetection),
      (∀ d ∈ ds, ∀ s ∈ kept, calculate_iou d.bbox s.bbox ≤ thr) →
      List.Pairwise (fun a b => calculate_iou a.bbox b.bbox ≤ thr) ds →
      nmsLoop thr kept ds = kept ++ ds := by
  intro ds
  induction ds with
  | nil => intro kept _ _; simp [nmsLoop]
  | cons d rest ih =>
    intro kept hcompat hpw
    have hov : nmsOverlaps thr kept d = false := by
      rw [nmsOverlaps, List.any_eq_false]
      intro s hs
      simp only [decide_eq_true_eq, not_lt]
      exact hcompat d (List.mem_cons_self d rest) s hs
    rw [nmsLoop, if_neg (by rw [hov]; simp)]
    rw [ih (kept ++ [d]) ?_ hpw.of_cons]
    · rw [List.append_assoc, List.singleton_append]
    · intro x hx s hs
      rcases List.mem_append.mp hs with hsk | hsd
      · exact hcompat x (List.mem_cons_of_mem d hx) s hsk
      · rw [List.mem_singleton] at hsd
        subst hsd
        rw [calculate_iou_comm]
        exact List.rel_of_pairwise_cons hpw hx

/-- Claim C7, confirmed: greedy NMS at threshold 0.3 is idempotent, no
two kept detections have IoU above 0.3, and every kept detection comes
from the input list. -/
theorem C7_nms_properties (dets : List NmsDetection) :
    filter_overlapping_detections (filter_overlapping_detections dets (3/10)) (3/10) =
      filter_overlapping_detections dets (3/10) ∧
    List.Pairwise (fun a b => calculate_iou a.bbox b.bbox ≤ 3/10)
      (filter_overlapping_detections dets (3/10)) ∧
    (∀ d ∈ filter_overlapping_detections dets (3/10), d ∈ dets) := by
  have happ : ∀ (l : List NmsDetection), l.length ≤ 1 →
      filter_overlapping_detections l (3/10) = l := by
    intro l hl
    rw [filter_overlapping_detections, if_pos hl]
  have happ2 : ∀ (l : List NmsDetection), ¬(l.length ≤ 1) →
      filter_overlapping_detections l (3/10) = nmsLoop (3/10) [] (l.mergeSort nmsLe) := by
    intro l hl
    rw [filter_overlapping_detections, if_neg hl]
  by_cases hlen : dets.length ≤ 1
  · have hout := happ dets hlen
    have hpw : List.Pairwise (fun a b => calculate_iou a.bbox b.bbox ≤ 3/10) dets := by
      rcases dets with _ | ⟨a, _ | ⟨b, l⟩⟩
      · exact List.Pairwise.nil
      · exact List.pairwise_singleton _ _
      · simp at hlen
    refine ⟨?_, ?_, ?_⟩
    · rw [hout]
      exact hout
    · rw [hout]
      exact hpw
    · rw [hout]
      exact fun d hd => hd
  · have hout := happ2 dets hlen
    have hsorted_full :
        List.Pairwise (fun a b => nmsLe a b = true) (dets.mergeSort nmsLe) :=
      List.sorted_mergeSort nmsLe_trans nmsLe_total dets
    have hsub : List.Sublist (filter_overlapping_detections dets (3/10)) (dets.mergeSort nmsLe) := by
      rw [hout]
      simpa using nmsLoop_sublist (3/10) (dets.mergeSort nmsLe) []
    have hpw : List.Pairwise (fun a b => calculate_iou a.bbox b.bbox ≤ 3/10)
        (filter_overlapping_detections dets (3/10)) := by
      rw [hout]
      exact nmsLoop_pairwise (3/10) _ [] List.Pairwise.nil
    have hmem : ∀ d ∈ filter_overlapping_detections dets (3/10), d ∈ dets := by
      intro d hd
      exact (List.mergeSort_perm dets nmsLe).mem_iff.mp (hsub.subset hd)
    refine ⟨?_, hpw, hmem⟩
    by_cases hlen2 : (filter_overlapping_detections dets (3/10)).length ≤ 1
    · exact happ _ hlen2
    · rw [happ2 _ hlen2]
      have hsorted_out :
          List.Pairwise (fun a b => nmsLe a b = true)
            (filter_overlapping_detections dets (3/10)) :=
        List.Pairwise.sublist hsub hsorted_full
      rw [List.mergeSort_of_sorted hsorted_out]
      rw [nmsLoop_of_compat (3/10) (filter_overlapping_detections dets (3/10)) []
        (by intro d _ s hs; exact absurd hs (List.not_mem_nil s)) hpw]
      rw [List.nil_append]

/-- Witness for `C7_nms_properties`: a single detection is kept and is
an element of the input. -/
theorem C7_witness : c7Det ∈ [c7Det] := by
  refine (C7_nms_properties [c7Det]).2.2 c7Det ?_
  rw [show filter_overlapping_detections [c7Det] (3/10) = [c7Det] from by
    rw [filter_overlapping_detections, if_pos (by simp)]]
  exact List.mem_singleton_self _

/-! ## C5 -/

theorem forall2_set_size {m : Measurement} (s' : ℚ) (hle : m.size_mm ≤ s') :
    ∀ (ms : List Measurement) (i : ℕ), ms[i]? = some m →
      List.Forall₂ measLe ms (ms.set i ⟨m.defect_type, s', m.percentage⟩) := by
  intro ms
  induction ms with
  | nil => intro i h; simp at h
  | cons a rest ih =>
    intro i h
    cases i with
    | zero =>
      rw [List.getElem?_cons_zero, Option.some.injEq] at h
      subst h
      rw [List.set_cons_zero]
      exact List.Forall₂.cons ⟨rfl, hle⟩ (List.forall₂_same.mpr fun x _ => ⟨rfl, le_refl _⟩)
    | succ n =>
      rw [List.set_cons_succ]
      exact List.Forall₂.cons ⟨rfl, le_refl _⟩ (ih n (by simpa using h))

theorem knot_data_size_le {ms ms' : List Measurement}
    (h : List.Forall₂ measLe ms ms') (t : KnotType) :
    knot_data_size_of ms t ≤ knot_data_size_of ms' t := by
  rw [knot_data_size_of, knot_data_size_of]
  suffices haux : ∀ {l l' : List Measurement}, List.Forall₂ measLe l l' → ∀ {a a' : ℚ}, a ≤ a' →
      List.foldl (fun acc m => if mapDefectType m.defect_type = t then max acc m.size_mm else acc)
        a l ≤
      List.foldl (fun acc m => if mapDefectType m.defect_type = t then max acc m.size_mm else acc)
        a' l' by
    exact haux h le_rfl
  intro l l' hf
  induction hf with
  | nil => intro a a' ha; simpa using ha
  | @cons x y l1 l2 hm hrest ihf =>
    intro a a' ha
    rw [List.foldl_cons, List.foldl_cons]
    apply ihf
    obtain ⟨htype, hsize⟩ := hm
    rw [htype]
    by_cases h2 : mapDefectType y.defect_type = t
    · rw [if_pos h2, if_pos h2]
      exact max_le_max ha hsize
    · rw [if_neg h2, if_neg h2]
      exact ha

theorem knot_data_number_eq {ms ms' : List Measurement}
    (h : List.Forall₂ measLe ms ms') :
    knot_data_number_of ms' = knot_data_number_of ms := by
  have hfilter : ∀ {l l' : List Measurement}, List.Forall₂ measLe l l' →
      (l'.filter fun m => mapDefectType m.defect_type = KnotType.unsound).length =
      (l.filter fun m => mapDefectType m.defect_type = KnotType.unsound).length := by
    intro l l' hf
    induction hf with
    | nil => rfl
    | @cons x y l1 l2 hm hrest ihf =>
      rw [List.filter_cons, List.filter_cons]
      obtain ⟨htype, -⟩ := hm
      rw [htype]
      by_cases hd : mapDefectType y.defect_type = KnotType.unsound
      · simp [hd, ihf]
      · simp [hd, ihf]
  rw [knot_data_number_of, knot_data_number_of]
  simp only [KnotDataNumber.mk.injEq]
  exact ⟨h.length_eq.symm, hfilter h⟩

theorem sizePass_anti (w : ℚ) {kds kds' : KnotType → ℚ} (hle : ∀ t, kds t ≤ kds' t)
    (g : Grade) (hpass : sizePass w kds' g = true) : sizePass w kds g = true := by
  rw [sizePass, List.all_eq_true] at hpass ⊢
  intro t ht
  have h' := hpass t ht
  dsimp only at h' ⊢
  by_cases h1 : get_max_allowed_size w g t = 0 ∧ kds t > 0
  · exfalso
    obtain ⟨ha, hpos⟩ := h1
    rw [if_pos ⟨ha, lt_of_lt_of_le hpos (hle t)⟩] at h'
    simp at h'
  · rw [if_neg h1]
    by_cases h2 : kds t > get_max_allowed_size w g t
    · exfalso
      have h2' : kds' t > get_max_allowed_size w g t := lt_of_lt_of_le h2 (hle t)
      by_cases h1' : get_max_allowed_size w g t = 0 ∧ kds' t > 0
      · rw [if_pos h1'] at h'
        simp at h'
      · rw [if_neg h1', if_pos h2'] at h'
        simp at h'
    · rw [if_neg h2]

/-- Claim C5, confirmed: raising the size of any single defect (holding
its type, the other defects, and the wood width fixed) never moves the
face grade to a lower (better) index. -/
theorem C5_grading_monotone (w : ℚ) (ms : List Measurement) (i : ℕ) (m : Measurement)
    (s' : ℚ) (hget : ms[i]? = some m) (hle : m.size_mm ≤ s') :
    gradeIdx (determine_surface_grade w ms) ≤
      gradeIdx (determine_surface_grade w (ms.set i ⟨m.defect_type, s', m.percentage⟩)) := by
  have hf2 := forall2_set_size s' hle ms i hget
  have hne : ms.isEmpty = false := by
    cases ms with
    | nil => simp at hget
    | cons a l => rfl
  have hne' : (ms.set i ⟨m.defect_type, s', m.percentage⟩).isEmpty = false := by
    cases ms with
    | nil => simp at hget
    | cons a l => cases i <;> rfl
  rw [determine_surface_grade, determine_surface_grade,
    if_neg (by rw [hne]; exact Bool.false_ne_true),
    if_neg (by rw [hne']; exact Bool.false_ne_true)]
  rw [gradeIdx_faceGradeOf, gradeIdx_faceGradeOf]
  rw [determine_single_face_grade_eq_pick, determine_single_face_grade_eq_pick]
  rw [knot_data_number_eq hf2]
  apply pick_mono
  all_goals
    intro hb
    rw [Bool.and_eq_true] at hb ⊢
    exact ⟨sizePass_anti w (fun t => knot_data_size_le hf2 t) _ hb.1, hb.2⟩

/-- Witness for `C5_grading_monotone`: growing a 5mm sound knot to 30mm
on a 100mm-wide face does not improve the grade. -/
theorem C5_witness :
    gradeIdx (determine_surface_grade 100 [⟨"Sound_Knot", 5, 1⟩]) ≤
      gradeIdx (determine_surface_grade 100
        ([⟨"Sound_Knot", 5, 1⟩].set 0 ⟨"Sound_Knot", 30, 1⟩)) := by
  exact C5_grading_monotone 100 [⟨"Sound_Knot", 5, 1⟩] 0 ⟨"Sound_Knot", 5, 1⟩ 30 rfl
    (by norm_num)

end Inspectura
